import Mathlib

/-!
Shallow embedding of the two source files of `wbyte-selenium-lambda`:
`src/main.py` (driver launcher, `put_object`, `lambda_handler`, and a copy of
the object wrapper class) and `src/objectwrapper.py` (the object wrapper
module).  Python machine state that the code observes is made explicit:

* the S3 service is a finite map from (bucket name, object key) to the byte
  string stored under that key;
* the local filesystem (consulted by `open(data, "rb")` inside `put`) is a
  finite map from filename to byte content;
* calls into the boto3 client that can raise are given their outcome as an
  explicit `Option PyExc` / `Except PyExc _` parameter, since the network
  behaviour of the service is outside the program;
* `logger` calls accumulate into a list of levelled log entries, `print`
  calls into a list of stdout lines;
* Python exception propagation is the `Except` monad, and the `isinstance`
  test performed by an `except C:` clause is modelled per exception class.

A central point of fidelity: in both files `ObjClientExceptions` is declared
as a SUBCLASS of `botocore.exceptions.ClientError` (`class
ObjClientExceptions(ClientError)`), and nothing in the repository ever raises
that subclass; boto3 raises `ClientError` instances.  A Python `except
ObjClientExceptions:` clause therefore does not catch the exceptions boto3
actually raises.  The embedding keeps the two classes distinct so that this
behaviour is visible.
-/

namespace WByte

deriving instance DecidableEq for Except

/-- Byte strings (Python `bytes`) are modelled as lists of byte values. -/
abbrev Bytes := List Nat

/-- A value passed as the `data` argument of `ObjectWrapper.put`: Python
`str` or `bytes`.  The code branches on `isinstance(data, str)`. -/
inductive PyData where
  | str (s : String)
  | bytes (b : Bytes)
  deriving DecidableEq

/-- The Python exceptions the embedded code can observe.

* `ioError name` — the `IOError` (`FileNotFoundError`) raised by
  `open(name, "rb")` when no such file exists;
* `clientError code` — an instance of `botocore.exceptions.ClientError`
  (or one of the service-generated subclasses botocore raises), carrying its
  error code;
* `objClientError code` — an instance of the repo-defined subclass
  `ObjClientExceptions(ClientError)`.  No code in the repository ever
  constructs one; it exists because `except ObjClientExceptions:` clauses
  test for exactly this class. -/
inductive PyExc where
  | ioError (name : String)
  | clientError (code : String)
  | objClientError (code : String)
  deriving DecidableEq

/-- Python `except ObjClientExceptions:` — matches instances of the subclass
`ObjClientExceptions` only.  A plain `ClientError` is an instance of the
SUPERCLASS, hence not matched (Python `isinstance` never matches a parent
class against a child clause). -/
def isObjClientExc : PyExc → Bool
  | .objClientError _ => true
  | _ => false

/-- Levels used by the `logging` calls in the source (`logger.exception`
logs at error level). -/
inductive LogLevel where
  | info
  | warning
  | error
  deriving DecidableEq

/-- One rendered log record. -/
structure LogEntry where
  level : LogLevel
  msg : String
  deriving DecidableEq

/-- The S3 service state: object bodies keyed by (bucket name, object key). -/
abbrev Store := List ((String × String) × Bytes)

/-- The local filesystem consulted by `open(name, "rb")`. -/
abbrev FS := List (String × Bytes)

/-- Look an object up in the service state. -/
def storeGet (st : Store) (bucket key : String) : Option Bytes :=
  (st.find? (fun e => e.1 == (bucket, key))).map (fun e => e.2)

/-- Effect on the service state of a successful `object.put(Body=body)`:
the object now holds `body`. -/
def storePut (st : Store) (bucket key : String) (body : Bytes) : Store :=
  ((bucket, key), body) :: st.filter (fun e => !(e.1 == (bucket, key)))

/-- Effect on the service state of a successful single-object delete. -/
def storeDel (st : Store) (bucket key : String) : Store :=
  st.filter (fun e => !(e.1 == (bucket, key)))

/-- `open(name, "rb")`: the file content when the file exists. -/
def fsOpen (fs : FS) (name : String) : Option Bytes :=
  (fs.find? (fun e => e.1 == name)).map (fun e => e.2)

/-- A boto3 object resource, as seen through the attributes the wrapper
reads (`self.object.key`, `self.object.bucket_name`). -/
structure S3Obj where
  bucket_name : String
  key : String
  deriving DecidableEq

/-- Rendered message of `logger.exception("Expected file name or binary
data, got '%s'.", data)`. -/
def openFailMsg (name : String) : String :=
  "Expected file name or binary data, got \x27" ++ name ++ "\x27."

/-- Rendered success message of `put` ( `logger.info` in objectwrapper.py,
`print(f"...")` in main.py — same text). -/
def putOkMsg (o : S3Obj) : String :=
  "Put object \x27" ++ o.key ++ "\x27 to bucket \x27" ++ o.bucket_name ++ "\x27."

/-- Rendered message of the `logger.exception` in `put`'s except clause. -/
def putFailMsg (o : S3Obj) : String :=
  "Couldn\x27t put object \x27" ++ o.key ++ "\x27 to bucket \x27" ++ o.bucket_name ++ "\x27."

/-- Result of one call to `ObjectWrapper.put`.

* `result` — normal return (`.ok`) or the exception that propagated;
* `store` — the service state after the call;
* `log` / `stdout` — what was logged / printed;
* `opens` — the `(name, mode)` pairs passed to `open` (attempted opens);
* `handleOpened` — whether an `open` succeeded, so a file handle exists;
* `closedHandle` — whether `.close()` was called on that handle;
* `waited` — whether `self.object.wait_until_exists()` ran to completion. -/
structure PutRes where
  result : Except PyExc Unit
  store : Store
  log : List LogEntry
  stdout : List String
  opens : List (String × String)
  handleOpened : Bool
  closedHandle : Bool
  waited : Bool
  deriving DecidableEq

/-- The second `try` block of `objectwrapper.py`'s `ObjectWrapper.put`
(`self.object.put(Body=put_data)`, `wait_until_exists`, success log,
`except ObjClientExceptions`, `finally: close`).  `body` is the byte content
being uploaded (the file content when `data` was a `str`); `putErr` /
`waitErr` are the outcomes of the two client calls (`none` = success);
`opens` and `opened` describe the file handle opened before this block.
The `finally` clause closes `put_data` exactly when it has a `close`
attribute, i.e. exactly when it is an open file handle. -/
def owPutBody (o : S3Obj) (body : Bytes) (st : Store)
    (putErr waitErr : Option PyExc)
    (opens : List (String × String)) (opened : Bool) : PutRes :=
  match putErr with
  | some e =>
      { result := .error e, store := st,
        log := if isObjClientExc e then [⟨.error, putFailMsg o⟩] else [],
        stdout := [], opens := opens,
        handleOpened := opened, closedHandle := opened, waited := false }
  | none =>
      let st' := storePut st o.bucket_name o.key body
      match waitErr with
      | some e =>
          { result := .error e, store := st',
            log := if isObjClientExc e then [⟨.error, putFailMsg o⟩] else [],
            stdout := [], opens := opens,
            handleOpened := opened, closedHandle := opened, waited := false }
      | none =>
          { result := .ok (), store := st',
            log := [⟨.info, putOkMsg o⟩],
            stdout := [], opens := opens,
            handleOpened := opened, closedHandle := opened, waited := true }

/-- Embedding of `ObjectWrapper.put` from `src/objectwrapper.py`.  When
`data` is a `str` it is opened as a filename in mode `"rb"`; on `IOError`
the failure is logged (`logger.exception`) and re-raised, before the second
`try` block is ever entered (so nothing is uploaded, no wait happens and
there is no handle to close). -/
def owPut (o : S3Obj) (data : PyData) (fs : FS) (st : Store)
    (putErr waitErr : Option PyExc) : PutRes :=
  match data with
  | .str s =>
      match fsOpen fs s with
      | none =>
          { result := .error (.ioError s), store := st,
            log := [⟨.error, openFailMsg s⟩], stdout := [],
            opens := [(s, "rb")],
            handleOpened := false, closedHandle := false, waited := false }
      | some content => owPutBody o content st putErr waitErr [(s, "rb")] true
  | .bytes b => owPutBody o b st putErr waitErr [] false

/-- The second `try` block of `main.py`'s copy of `ObjectWrapper.put`.
Identical to `owPutBody` except that the success message goes to stdout via
`print(f"Put object '...' to bucket '...'.")` instead of `logger.info`. -/
def mainPutBody (o : S3Obj) (body : Bytes) (st : Store)
    (putErr waitErr : Option PyExc)
    (opens : List (String × String)) (opened : Bool) : PutRes :=
  match putErr with
  | some e =>
      { result := .error e, store := st,
        log := if isObjClientExc e then [⟨.error, putFailMsg o⟩] else [],
        stdout := [], opens := opens,
        handleOpened := opened, closedHandle := opened, waited := false }
  | none =>
      let st' := storePut st o.bucket_name o.key body
      match waitErr with
      | some e =>
          { result := .error e, store := st',
            log := if isObjClientExc e then [⟨.error, putFailMsg o⟩] else [],
            stdout := [], opens := opens,
            handleOpened := opened, closedHandle := opened, waited := false }
      | none =>
          { result := .ok (), store := st',
            log := [],
            stdout := [putOkMsg o], opens := opens,
            handleOpened := opened, closedHandle := opened, waited := true }

/-- Embedding of the `put` method of the `ObjectWrapper` class defined
inside `src/main.py` (lines 107-139).  Same control flow as `owPut`; only
the success message is printed rather than logged. -/
def mainPut (o : S3Obj) (data : PyData) (fs : FS) (st : Store)
    (putErr waitErr : Option PyExc) : PutRes :=
  match data with
  | .str s =>
      match fsOpen fs s with
      | none =>
          { result := .error (.ioError s), store := st,
            log := [⟨.error, openFailMsg s⟩], stdout := [],
            opens := [(s, "rb")],
            handleOpened := false, closedHandle := false, waited := false }
      | some content => mainPutBody o content st putErr waitErr [(s, "rb")] true
  | .bytes b => mainPutBody o b st putErr waitErr [] false

/-- Python repr of a list of strings, as rendered into log messages by
`%s`-formatting a `[o.key for o in objects]`-style list. -/
def pyStrList (ks : List String) : String :=
  "[" ++ String.intercalate ", " (ks.map (fun k => "\x27" ++ k ++ "\x27")) ++ "]"

/-- Truthiness of the optional `prefix` argument of `list`: Python
`if not prefix:` holds for `None` and for the empty string. -/
def strFalsy : Option String → Bool
  | none => true
  | some s => s.isEmpty

/-- The keys of the objects of one bucket, in service-state order
(`bucket.objects.all()`). -/
def bucketKeys (st : Store) (bucket : String) : List String :=
  (st.filter (fun e => e.1.1 == bucket)).map (fun e => e.1.2)

/-- Outcome of the boto3 call `self.object.get()["Body"].read()`:
either an injected failure, the body when the object exists, or the
`NoSuchKey` `ClientError` boto3 raises for a missing object. -/
def s3GetCall (o : S3Obj) (st : Store) (getErr : Option PyExc) : Except PyExc Bytes :=
  match getErr with
  | some e => .error e
  | none =>
      match storeGet st o.bucket_name o.key with
      | none => .error (.clientError "NoSuchKey")
      | some b => .ok b

def getOkMsg (o : S3Obj) : String :=
  "Got object \x27" ++ o.key ++ "\x27 from bucket \x27" ++ o.bucket_name ++ "\x27."

def getOkFmt : String :=
  "Got object \x27%s\x27 from bucket \x27%s\x27."

def getFailMsg (o : S3Obj) : String :=
  "Couldn\x27t get object \x27" ++ o.key ++ "\x27 from bucket \x27" ++ o.bucket_name ++ "\x27."

/-- Result of a call to `get`, `list` or `delete_objects` (operations that
do not change the service state in the model's observation). -/
structure GetRes where
  result : Except PyExc Bytes
  log : List LogEntry
  stdout : List String
  deriving DecidableEq

/-- Embedding of `ObjectWrapper.get` from `src/objectwrapper.py`. -/
def owGet (o : S3Obj) (st : Store) (getErr : Option PyExc) : GetRes :=
  match s3GetCall o st getErr with
  | .error e =>
      { result := .error e,
        log := if isObjClientExc e then [⟨.error, getFailMsg o⟩] else [],
        stdout := [] }
  | .ok b =>
      { result := .ok b, log := [⟨.info, getOkMsg o⟩], stdout := [] }

/-- Embedding of the `get` method of `main.py`'s `ObjectWrapper`: the
success message goes through `print("...%s...", key, bucket)` (arguments
joined by spaces, no interpolation) instead of `logger.info`. -/
def mainGet (o : S3Obj) (st : Store) (getErr : Option PyExc) : GetRes :=
  match s3GetCall o st getErr with
  | .error e =>
      { result := .error e,
        log := if isObjClientExc e then [⟨.error, getFailMsg o⟩] else [],
        stdout := [] }
  | .ok b =>
      { result := .ok b, log := [],
        stdout := [String.intercalate " " [getOkFmt, o.key, o.bucket_name]] }

def listOkMsg (ks : List String) (bucket : String) : String :=
  "Got objects " ++ pyStrList ks ++ " from bucket \x27" ++ bucket ++ "\x27"

def listOkFmt : String :=
  "Got objects %s from bucket \x27%s\x27"

def listFailMsg (bucket : String) : String :=
  "Couldn\x27t get objects for bucket \x27" ++ bucket ++ "\x27."

structure ListRes where
  result : Except PyExc (List String)
  log : List LogEntry
  stdout : List String
  deriving DecidableEq

/-- Embedding of the static method `ObjectWrapper.list` from
`src/objectwrapper.py`.  `pfx` is the optional `prefix` argument
(default `None`); listing is `bucket.objects.all()` when `not prefix`,
otherwise `bucket.objects.filter(Prefix=prefix)`.  `listErr` is the outcome
of the underlying client call. -/
def owList (bucket : String) (st : Store) (pfx : Option String)
    (listErr : Option PyExc) : ListRes :=
  match listErr with
  | some e =>
      { result := .error e,
        log := if isObjClientExc e then [⟨.error, listFailMsg bucket⟩] else [],
        stdout := [] }
  | none =>
      let objects :=
        if strFalsy pfx then bucketKeys st bucket
        else (bucketKeys st bucket).filter (fun k => k.startsWith (pfx.getD ""))
      { result := .ok objects,
        log := [⟨.info, listOkMsg objects bucket⟩], stdout := [] }

/-- Embedding of the `list` method of `main.py`'s `ObjectWrapper`. -/
def mainList (bucket : String) (st : Store) (pfx : Option String)
    (listErr : Option PyExc) : ListRes :=
  match listErr with
  | some e =>
      { result := .error e,
        log := if isObjClientExc e then [⟨.error, listFailMsg bucket⟩] else [],
        stdout := [] }
  | none =>
      let objects :=
        if strFalsy pfx then bucketKeys st bucket
        else (bucketKeys st bucket).filter (fun k => k.startsWith (pfx.getD ""))
      { result := .ok objects, log := [],
        stdout := [String.intercalate " " [listOkFmt, pyStrList objects, bucket]] }

def delOkMsg (o : S3Obj) : String :=
  "Deleted object \x27" ++ o.key ++ "\x27 from bucket \x27" ++ o.bucket_name ++ "\x27."

def delOkFmt : String :=
  "Deleted object \x27%s\x27 from bucket \x27%s\x27."

def delFailMsg (o : S3Obj) : String :=
  "Couldn\x27t delete object \x27" ++ o.key ++ "\x27 from bucket \x27" ++ o.bucket_name ++ "\x27."

structure DeleteRes where
  result : Except PyExc Unit
  store : Store
  log : List LogEntry
  stdout : List String
  deriving DecidableEq

/-- Embedding of `ObjectWrapper.delete` from `src/objectwrapper.py`
(`self.object.delete()`, `wait_until_not_exists`, success log, `except
ObjClientExceptions`). -/
def owDelete (o : S3Obj) (st : Store) (delErr waitErr : Option PyExc) : DeleteRes :=
  match delErr with
  | some e =>
      { result := .error e, store := st,
        log := if isObjClientExc e then [⟨.error, delFailMsg o⟩] else [],
        stdout := [] }
  | none =>
      let st' := storeDel st o.bucket_name o.key
      match waitErr with
      | some e =>
          { result := .error e, store := st',
            log := if isObjClientExc e then [⟨.error, delFailMsg o⟩] else [],
            stdout := [] }
      | none =>
          { result := .ok (), store := st',
            log := [⟨.info, delOkMsg o⟩], stdout := [] }

/-- Embedding of the `delete` method of `main.py`'s `ObjectWrapper`. -/
def mainDelete (o : S3Obj) (st : Store) (delErr waitErr : Option PyExc) : DeleteRes :=
  match delErr with
  | some e =>
      { result := .error e, store := st,
        log := if isObjClientExc e then [⟨.error, delFailMsg o⟩] else [],
        stdout := [] }
  | none =>
      let st' := storeDel st o.bucket_name o.key
      match waitErr with
      | some e =>
          { result := .error e, store := st',
            log := if isObjClientExc e then [⟨.error, delFailMsg o⟩] else [],
            stdout := [] }
      | none =>
          { result := .ok (), store := st', log := [],
            stdout := [String.intercalate " " [delOkFmt, o.key, o.bucket_name]] }

/-- The response structure of the batch-delete request: the optional
`Deleted` list (keys that were removed) and the optional `Errors` list
(pairs of key and per-key error code).  `in response` tests map to the
options being `some`. -/
structure DelObjsResponse where
  deleted : Option (List String)
  errors : Option (List (String × String))
  deriving DecidableEq

def delObjsOkMsg (ds : List String) (bucket : String) : String :=
  "Deleted objects \x27" ++ pyStrList ds ++ "\x27 from bucket \x27" ++ bucket ++ "\x27."

def delObjsOkFmt : String :=
  "Deleted objects \x27%s\x27 from bucket \x27%s\x27."

def delObjsWarnMsg (es : List (String × String)) (bucket : String) : String :=
  "Could not delete objects \x27"
    ++ pyStrList (es.map (fun p => p.1 ++ ": " ++ p.2))
    ++ "\x27 from bucket \x27" ++ bucket ++ "\x27."

def delObjsFailMsg (bucket : String) : String :=
  "Couldn\x27t delete any objects from bucket " ++ bucket ++ "."

structure DelObjsRes where
  result : Except PyExc DelObjsResponse
  log : List LogEntry
  stdout : List String
  deriving DecidableEq

/-- Embedding of the static method `ObjectWrapper.delete_objects` from
`src/objectwrapper.py`.  `object_keys` is the list of keys put into the
request payload; `outcome` is the service's answer to that request — either
an exception or a `DelObjsResponse`.  On a response, `Deleted` entries are
logged at info level, `Errors` entries at warning level, and the response is
returned unchanged; no exception is raised for partial failure. -/
def owDeleteObjects (bucket : String) (_object_keys : List String)
    (outcome : Except PyExc DelObjsResponse) : DelObjsRes :=
  match outcome with
  | .error e =>
      { result := .error e,
        log := if isObjClientExc e then [⟨.error, delObjsFailMsg bucket⟩] else [],
        stdout := [] }
  | .ok resp =>
      let infoPart : List LogEntry :=
        match resp.deleted with
        | some ds => [⟨.info, delObjsOkMsg ds bucket⟩]
        | none => []
      let warnPart : List LogEntry :=
        match resp.errors with
        | some es => [⟨.warning, delObjsWarnMsg es bucket⟩]
        | none => []
      { result := .ok resp, log := infoPart ++ warnPart, stdout := [] }

/-- Embedding of the `delete_objects` method of `main.py`'s
`ObjectWrapper`: the `Deleted` message goes through `print`, the `Errors`
message still through `logger.warning`. -/
def mainDeleteObjects (bucket : String) (_object_keys : List String)
    (outcome : Except PyExc DelObjsResponse) : DelObjsRes :=
  match outcome with
  | .error e =>
      { result := .error e,
        log := if isObjClientExc e then [⟨.error, delObjsFailMsg bucket⟩] else [],
        stdout := [] }
  | .ok resp =>
      let outPart : List String :=
        match resp.deleted with
        | some ds =>
            [String.intercalate " " [delObjsOkFmt, pyStrList ds, bucket]]
        | none => []
      let warnPart : List LogEntry :=
        match resp.errors with
        | some es => [⟨.warning, delObjsWarnMsg es bucket⟩]
        | none => []
      { result := .ok resp, log := warnPart, stdout := outPart }

def emptyOkMsg (bucket : String) : String :=
  "Emptied bucket \x27" ++ bucket ++ "\x27."

def emptyOkFmt : String :=
  "Emptied bucket \x27%s\x27."

def emptyFailMsg (bucket : String) : String :=
  "Couldn\x27t empty bucket \x27" ++ bucket ++ "\x27."

structure EmptyRes where
  result : Except PyExc Unit
  store : Store
  log : List LogEntry
  stdout : List String
  deriving DecidableEq

/-- Embedding of the static method `ObjectWrapper.empty_bucket` from
`src/objectwrapper.py` (`bucket.objects.delete()` removes every object of
the bucket). -/
def owEmptyBucket (bucket : String) (st : Store) (err : Option PyExc) : EmptyRes :=
  match err with
  | some e =>
      { result := .error e, store := st,
        log := if isObjClientExc e then [⟨.error, emptyFailMsg bucket⟩] else [],
        stdout := [] }
  | none =>
      { result := .ok (), store := st.filter (fun e => !(e.1.1 == bucket)),
        log := [⟨.info, emptyOkMsg bucket⟩], stdout := [] }

/-- Embedding of the `empty_bucket` method of `main.py`'s `ObjectWrapper`. -/
def mainEmptyBucket (bucket : String) (st : Store) (err : Option PyExc) : EmptyRes :=
  match err with
  | some e =>
      { result := .error e, store := st,
        log := if isObjClientExc e then [⟨.error, emptyFailMsg bucket⟩] else [],
        stdout := [] }
  | none =>
      { result := .ok (), store := st.filter (fun e => !(e.1.1 == bucket)),
        log := [],
        stdout := [String.intercalate " " [emptyOkFmt, bucket]] }

/-- Hexadecimal digit used by JSON `\uXXXX` escapes (lowercase, as
produced by Python's `json.dumps`). -/
def hexDigit (n : Nat) : Char :=
  if n < 10 then Char.ofNat (48 + n) else Char.ofNat (87 + n)

/-- A four-digit `\uXXXX` escape. -/
def uEscape (n : Nat) : String :=
  String.mk ['\\', 'u', hexDigit (n / 4096 % 16), hexDigit (n / 256 % 16),
    hexDigit (n / 16 % 16), hexDigit (n % 16)]

/-- Escaping of one character by `json.dumps` with its default
`ensure_ascii=True`: the two mandatory escapes, the short control escapes,
`\uXXXX` for remaining control and non-ASCII characters, and a surrogate
pair for characters beyond the basic plane. -/
def jsonEscapeChar (c : Char) : String :=
  if c = '"' then "\\\""
  else if c = '\\' then "\\\\"
  else if c = '\n' then "\\n"
  else if c = '\r' then "\\r"
  else if c = '\t' then "\\t"
  else if c.toNat = 8 then "\\b"
  else if c.toNat = 12 then "\\f"
  else if c.toNat < 32 then uEscape c.toNat
  else if c.toNat < 127 then String.singleton c
  else if c.toNat < 65536 then uEscape c.toNat
  else
    uEscape (55296 + (c.toNat - 65536) / 1024)
      ++ uEscape (56320 + (c.toNat - 65536) % 1024)

/-- `json.dumps({"title": t})`: the body string built by the handler.  The
default separators put one space after the colon. -/
def jsonDumpsTitle (t : String) : String :=
  "\x7b\"title\": \"" ++ String.join (t.data.map jsonEscapeChar) ++ "\"\x7d"

/-- Standard UTF-8 encoding of one character, for comparing a stored byte
body with a Python `str`. -/
def utf8Bytes (c : Char) : Bytes :=
  if c.toNat < 128 then [c.toNat]
  else if c.toNat < 2048 then
    [192 + c.toNat / 64, 128 + c.toNat % 64]
  else if c.toNat < 65536 then
    [224 + c.toNat / 4096, 128 + c.toNat / 64 % 64, 128 + c.toNat % 64]
  else
    [240 + c.toNat / 262144, 128 + c.toNat / 4096 % 64,
      128 + c.toNat / 64 % 64, 128 + c.toNat % 64]

/-- UTF-8 bytes of a string. -/
def strUTF8 (s : String) : Bytes :=
  s.data.foldr (fun c acc => utf8Bytes c ++ acc) []

/-- The request event: a JSON-like mapping from string keys to string
values. -/
abbrev Event := List (String × String)

/-- Python `event.get(key, "")`: the value under `key`, defaulting to the
empty string. -/
def eventGet (ev : Event) (k : String) : String :=
  ((ev.find? (fun p => p.1 == k)).map (fun p => p.2)).getD ""

/-- Everything outside the program that `lambda_handler` interacts with:

* `web` — the browser's view of the network: `web url` is the title of the
  page the driver sees after `driver.get url` (read back by `driver.title`);
* `fs` — the local filesystem (`open` in `put`);
* `store` — the S3 service state;
* `driverErr` — outcome of launching the driver and navigating (`none` =
  success; any failure there propagates uncaught);
* `putErr`, `waitErr`, `listErr` — outcomes of the client calls made by the
  `put` and `list` steps of `put_object`. -/
structure Env where
  web : String → String
  fs : FS
  store : Store
  driverErr : Option PyExc
  putErr : Option PyExc
  waitErr : Option PyExc
  listErr : Option PyExc

/-- The handler's response dictionary. -/
structure Response where
  statusCode : Nat
  headers : List (String × String)
  body : String
  deriving DecidableEq

/-- Result of `put_object` or of the whole handler: the returned value or
propagated exception, the service state left behind, and the emitted log
and stdout lines. -/
structure StepRes (α : Type) where
  result : Except PyExc α
  store : Store
  log : List LogEntry
  stdout : List String

/-- Embedding of `put_object(data, bucket, object_key)` from
`src/main.py`.  It wraps the bucket's object in `main.py`'s own
`ObjectWrapper` class (main.py never imports `objectwrapper.py`), calls
`put(data)`, prints a confirmation, lists the bucket with
`ObjectWrapper.list(bucket)` (no prefix) and prints the keys.  Any
exception from `put` or `list` propagates. -/
def put_object (data : PyData) (bucket object_key : String)
    (fs : FS) (st : Store) (putErr waitErr listErr : Option PyExc) :
    StepRes Unit :=
  let pr := mainPut ⟨bucket, object_key⟩ data fs st putErr waitErr
  match pr.result with
  | .error e =>
      { result := .error e, store := pr.store, log := pr.log, stdout := pr.stdout }
  | .ok _ =>
      let havePut :=
        "Have put \x27" ++ (match data with
          | .str s => s
          | .bytes b => String.intercalate " " (b.map toString))
          ++ "\x27 into object \x27" ++ object_key ++ "\x27"
      let lr := mainList bucket pr.store none listErr
      match lr.result with
      | .error e =>
          { result := .error e, store := pr.store,
            log := pr.log ++ lr.log,
            stdout := pr.stdout ++ [havePut] ++ lr.stdout }
      | .ok ks =>
          { result := .ok (), store := pr.store,
            log := pr.log ++ lr.log,
            stdout := pr.stdout ++ [havePut] ++ lr.stdout
              ++ ["Object keys are: " ++ String.intercalate ", " ks] }

/-- Embedding of `lambda_handler(event, context)` from `src/main.py`.
The handler reads `test-url` (default `""`), launches the driver and
navigates there, reads the page title, builds the response, then calls
`put_object` with the URL string — a `str`, so `put` treats it as a
filename — and returns the response.  There is no try/except anywhere in
the handler: any exception from the driver or from `put_object`
propagates, in which case nothing is returned. -/
def lambda_handler (env : Env) (event : Event) (context : String) :
    StepRes Response :=
  let entered :=
    "Entered lambda_handler() with \x27"
      ++ String.intercalate ", " (event.map (fun p => p.1 ++ "=" ++ p.2))
      ++ "\x27 and " ++ context
  let test_url := eventGet event "test-url"
  let initMsg := "Init driver and getting url \x27" ++ test_url ++ "\x27"
  match env.driverErr with
  | some e =>
      { result := .error e, store := env.store, log := [],
        stdout := [entered, initMsg, "Initialising driver"] }
  | none =>
      let title := env.web test_url
      let titleMsg := "Page title: \x27" ++ title ++ "\x27"
      let response : Response :=
        { statusCode := 200,
          headers := [("Content-Type", "application/json")],
          body := jsonDumpsTitle title }
      let s3_bucket := eventGet event "s3-bucket"
      let s3_object_key := eventGet event "s3-object-key"
      let puttingMsg :=
        "Putting \x27" ++ test_url ++ "\x27 into object \x27" ++ s3_object_key
          ++ "\x27 in bucket \x27" ++ s3_bucket ++ "\x27"
      let pre := [entered, initMsg, "Initialising driver", titleMsg, puttingMsg]
      let pr := put_object (.str test_url) s3_bucket s3_object_key
        env.fs env.store env.putErr env.waitErr env.listErr
      match pr.result with
      | .error e =>
          { result := .error e, store := pr.store, log := pr.log,
            stdout := pre ++ pr.stdout }
      | .ok _ =>
          { result := .ok response, store := pr.store, log := pr.log,
            stdout := pre ++ pr.stdout }

/-- The byte content that `put` hands to `self.object.put(Body=...)` for a
given `data` argument: the bytes themselves, or the content of the file a
`str` names. -/
def putPayload (data : PyData) (fs : FS) : Option Bytes :=
  match data with
  | .str s => fsOpen fs s
  | .bytes b => some b

/-- The error- and warning-level part of a log: what remains when the
info-level success messages are stripped. -/
def errWarnLog (l : List LogEntry) : List LogEntry :=
  l.filter (fun e => !(e.level == .info))

lemma storeGet_storePut_same (st : Store) (b k : String) (body : Bytes) :
    storeGet (storePut st b k body) b k = some body := by
  simp [storeGet, storePut, List.find?]

lemma put_agree (o : S3Obj) (data : PyData) (fs : FS) (st : Store)
    (pe we : Option PyExc) :
    (mainPut o data fs st pe we).result = (owPut o data fs st pe we).result
    ∧ (mainPut o data fs st pe we).store = (owPut o data fs st pe we).store
    ∧ (mainPut o data fs st pe we).opens = (owPut o data fs st pe we).opens
    ∧ (mainPut o data fs st pe we).handleOpened = (owPut o data fs st pe we).handleOpened
    ∧ (mainPut o data fs st pe we).closedHandle = (owPut o data fs st pe we).closedHandle
    ∧ (mainPut o data fs st pe we).waited = (owPut o data fs st pe we).waited
    ∧ errWarnLog (mainPut o data fs st pe we).log
        = errWarnLog (owPut o data fs st pe we).log := by
  cases data with
  | str s =>
      cases h : fsOpen fs s with
      | none => simp [mainPut, owPut, h]
      | some c =>
          cases pe <;> cases we <;>
            simp [mainPut, owPut, mainPutBody, owPutBody, h, errWarnLog]
  | bytes b =>
      cases pe <;> cases we <;>
        simp [mainPut, owPut, mainPutBody, owPutBody, errWarnLog]

lemma get_agree (o : S3Obj) (st : Store) (ge : Option PyExc) :
    (mainGet o st ge).result = (owGet o st ge).result
    ∧ errWarnLog (mainGet o st ge).log = errWarnLog (owGet o st ge).log := by
  cases h : s3GetCall o st ge <;> simp [mainGet, owGet, h, errWarnLog]

lemma list_agree (bucket : String) (st : Store) (pfx : Option String)
    (le : Option PyExc) :
    (mainList bucket st pfx le).result = (owList bucket st pfx le).result
    ∧ errWarnLog (mainList bucket st pfx le).log
        = errWarnLog (owList bucket st pfx le).log := by
  cases le <;> simp [mainList, owList, errWarnLog]

lemma delete_agree (o : S3Obj) (st : Store) (de we : Option PyExc) :
    (mainDelete o st de we).result = (owDelete o st de we).result
    ∧ (mainDelete o st de we).store = (owDelete o st de we).store
    ∧ errWarnLog (mainDelete o st de we).log = errWarnLog (owDelete o st de we).log := by
  cases de <;> cases we <;> simp [mainDelete, owDelete, errWarnLog]

lemma delete_objects_agree (bucket : String) (keys : List String)
    (outcome : Except PyExc DelObjsResponse) :
    (mainDeleteObjects bucket keys outcome).result
      = (owDeleteObjects bucket keys outcome).result
    ∧ errWarnLog (mainDeleteObjects bucket keys outcome).log
        = errWarnLog (owDeleteObjects bucket keys outcome).log := by
  cases outcome with
  | error e => simp [mainDeleteObjects, owDeleteObjects, errWarnLog]
  | ok resp =>
      obtain ⟨d, er⟩ := resp
      cases d <;> cases er <;>
        simp [mainDeleteObjects, owDeleteObjects, errWarnLog]

lemma empty_agree (bucket : String) (st : Store) (be : Option PyExc) :
    (mainEmptyBucket bucket st be).result = (owEmptyBucket bucket st be).result
    ∧ (mainEmptyBucket bucket st be).store = (owEmptyBucket bucket st be).store
    ∧ errWarnLog (mainEmptyBucket bucket st be).log
        = errWarnLog (owEmptyBucket bucket st be).log := by
  cases be <;> simp [mainEmptyBucket, owEmptyBucket, errWarnLog]

/-- C3: the claim says every exception raised by the underlying storage
client is logged with key/bucket context and re-raised.  The code's
`except ObjClientExceptions:` clauses name a subclass of `ClientError` that
nothing ever raises, so the `ClientError` instances boto3 actually raises
propagate unchanged WITHOUT being logged: here a put and a get whose client
call raises `ClientError("AccessDenied")` re-raise that same exception with
an empty log. -/
theorem C3_theorem :
    (owPut ⟨"b", "k"⟩ (.bytes [1]) [] [] (some (.clientError "AccessDenied")) none).result
      = .error (.clientError "AccessDenied")
    ∧ (owPut ⟨"b", "k"⟩ (.bytes [1]) [] [] (some (.clientError "AccessDenied")) none).log = []
    ∧ (owGet ⟨"b", "k"⟩ [] (some (.clientError "AccessDenied"))).result
      = .error (.clientError "AccessDenied")
    ∧ (owGet ⟨"b", "k"⟩ [] (some (.clientError "AccessDenied"))).log = [] := by
  decide

/-- C4: when the batch-delete request itself succeeds with some keys
deleted and some failed, `delete_objects` does not raise: it returns the
full response unchanged, logging the `Deleted` keys at info level and the
`Errors` keys at warning level. -/
theorem C4_theorem (bucket : String) (keys : List String)
    (outcome : Except PyExc DelObjsResponse) (resp : DelObjsResponse)
    (ds : List String) (es : List (String × String)) (k1 k2 code : String)
    (h1 : outcome = .ok resp) (h2 : resp.deleted = some ds)
    (h3 : resp.errors = some es) (_hk1 : k1 ∈ ds) (_hk2 : (k2, code) ∈ es) :
    (owDeleteObjects bucket keys outcome).result = .ok resp
    ∧ (owDeleteObjects bucket keys outcome).log
        = [⟨.info, delObjsOkMsg ds bucket⟩, ⟨.warning, delObjsWarnMsg es bucket⟩] := by
  subst h1
  simp [owDeleteObjects, h2, h3]

theorem C4_witness :
    (owDeleteObjects "b" ["k1", "k2"] (.ok ⟨some ["k1"], some [("k2", "NoSuchKey")]⟩)).result
      = .ok ⟨some ["k1"], some [("k2", "NoSuchKey")]⟩
    ∧ (owDeleteObjects "b" ["k1", "k2"] (.ok ⟨some ["k1"], some [("k2", "NoSuchKey")]⟩)).log
      = [⟨.info, delObjsOkMsg ["k1"] "b"⟩,
         ⟨.warning, delObjsWarnMsg [("k2", "NoSuchKey")] "b"⟩] :=
  C4_theorem "b" ["k1", "k2"] _ _ ["k1"] [("k2", "NoSuchKey")] "k1" "k2" "NoSuchKey"
    rfl rfl rfl (by decide) (by decide)

/-- C5: a `str` argument to `put` is always opened as a local filename in
mode `"rb"`; when no such file exists the call raises the `IOError` after
logging it, with the service state untouched and no existence wait — and a
`bytes` argument never opens any file. -/
theorem C5_theorem (o : S3Obj) (s : String) (b : Bytes) (fs : FS) (st : Store)
    (pe we : Option PyExc) :
    (owPut o (.str s) fs st pe we).opens = [(s, "rb")]
    ∧ (fsOpen fs s = none →
        owPut o (.str s) fs st pe we
          = ⟨.error (.ioError s), st, [⟨.error, openFailMsg s⟩], [],
             [(s, "rb")], false, false, false⟩)
    ∧ (owPut o (.bytes b) fs st pe we).opens = [] := by
  refine ⟨?_, ?_, ?_⟩
  · cases h : fsOpen fs s with
    | none => simp [owPut, h]
    | some c => cases pe <;> cases we <;> simp [owPut, owPutBody, h]
  · intro h
    simp [owPut, h]
  · cases pe <;> cases we <;> simp [owPut, owPutBody]

theorem C5_witness :
    (owPut ⟨"b", "k"⟩ (.str "missing.txt") [] [] none none).opens
      = [("missing.txt", "rb")]
    ∧ owPut ⟨"b", "k"⟩ (.str "missing.txt") [] [] none none
      = ⟨.error (.ioError "missing.txt"), [], [⟨.error, openFailMsg "missing.txt"⟩],
         [], [("missing.txt", "rb")], false, false, false⟩
    ∧ (owPut ⟨"b", "k"⟩ (.bytes [1]) [] [] none none).opens = [] := by
  have h := C5_theorem ⟨"b", "k"⟩ "missing.txt" [1] [] [] none none
  exact ⟨h.1, h.2.1 rfl, h.2.2⟩

/-- C6: when `put` returns normally it has completed
`wait_until_exists` (the object is confirmed present), and a `get` on the
same object immediately afterwards retrieves exactly the uploaded bytes. -/
theorem C6_theorem (o : S3Obj) (data : PyData) (fs : FS) (st : Store)
    (pe we : Option PyExc) (body : Bytes)
    (hb : putPayload data fs = some body)
    (hok : (owPut o data fs st pe we).result = .ok ()) :
    (owPut o data fs st pe we).waited = true
    ∧ (owGet o (owPut o data fs st pe we).store none).result = .ok body := by
  cases data with
  | str s =>
      cases h : fsOpen fs s with
      | none => simp [owPut, h] at hok
      | some c =>
          simp only [putPayload, h, Option.some.injEq] at hb
          subst hb
          cases pe with
          | some e => simp [owPut, owPutBody, h] at hok
          | none =>
              cases we with
              | some e => simp [owPut, owPutBody, h] at hok
              | none =>
                  refine ⟨by simp [owPut, owPutBody, h], ?_⟩
                  simp [owPut, owPutBody, h, owGet, s3GetCall, storeGet_storePut_same]
  | bytes bb =>
      simp only [putPayload, Option.some.injEq] at hb
      subst hb
      cases pe with
      | some e => simp [owPut, owPutBody] at hok
      | none =>
          cases we with
          | some e => simp [owPut, owPutBody] at hok
          | none =>
              refine ⟨by simp [owPut, owPutBody], ?_⟩
              simp [owPut, owPutBody, owGet, s3GetCall, storeGet_storePut_same]

theorem C6_witness :
    (owPut ⟨"b", "k"⟩ (.bytes [7, 8]) [] [] none none).waited = true
    ∧ (owGet ⟨"b", "k"⟩ (owPut ⟨"b", "k"⟩ (.bytes [7, 8]) [] [] none none).store none).result
      = .ok [7, 8] :=
  C6_theorem ⟨"b", "k"⟩ (.bytes [7, 8]) [] [] none none [7, 8] (by decide) (by decide)

/-- C7: whenever `put` opened a file handle it closes it on every exit
path (success, client failure on the upload, or failure of the existence
wait); when `put` is given `bytes`, no handle is ever opened and no close is
attempted. -/
theorem C7_theorem (o : S3Obj) (data : PyData) (fs : FS) (st : Store)
    (pe we : Option PyExc) :
    ((owPut o data fs st pe we).handleOpened = true →
      (owPut o data fs st pe we).closedHandle = true)
    ∧ ∀ b, data = .bytes b →
      (owPut o data fs st pe we).handleOpened = false
      ∧ (owPut o data fs st pe we).closedHandle = false := by
  cases data with
  | str s =>
      refine ⟨?_, ?_⟩
      · intro hh
        cases h : fsOpen fs s with
        | none => simp [owPut, h] at hh
        | some c => cases pe <;> cases we <;> simp [owPut, owPutBody, h]
      · intro b hb
        simp at hb
  | bytes b =>
      refine ⟨?_, ?_⟩
      · intro hh
        cases pe <;> cases we <;> simp [owPut, owPutBody] at hh
      · intro b' _
        cases pe <;> cases we <;> simp [owPut, owPutBody]

theorem C7_witness :
    (owPut ⟨"b", "k"⟩ (.str "f") [("f", [1])] [] none none).closedHandle = true
    ∧ (owPut ⟨"b", "k"⟩ (.bytes [2]) [] [] none none).handleOpened = false
    ∧ (owPut ⟨"b", "k"⟩ (.bytes [2]) [] [] none none).closedHandle = false := by
  have h1 := C7_theorem ⟨"b", "k"⟩ (.str "f") [("f", [1])] [] none none
  have h2 := C7_theorem ⟨"b", "k"⟩ (.bytes [2]) [] [] none none
  exact ⟨h1.1 (by decide), (h2.2 [2] rfl).1, (h2.2 [2] rfl).2⟩

/-- C10: an empty-string prefix is falsy in `if not prefix:`, so
`list(bucket, prefix="")` takes the same `bucket.objects.all()` branch as
`list(bucket)` and the two calls agree exactly, on every service state and
client outcome. -/
theorem C10_theorem (bucket : String) (st : Store) (le : Option PyExc) :
    owList bucket st (some "") le = owList bucket st none le := by
  cases le <;> rfl

/-- C8: whenever `lambda_handler` returns at all, the returned response has
status code 200 (no other status exists in the code), the JSON content-type
header, and as body the JSON string with the title read from the page the
driver navigated to (the `test-url` value). -/
theorem C8_theorem (env : Env) (ev : Event) (ctx : String) (r : Response)
    (h : (lambda_handler env ev ctx).result = .ok r) :
    r.statusCode = 200
    ∧ r.headers = [("Content-Type", "application/json")]
    ∧ r.body = jsonDumpsTitle (env.web (eventGet ev "test-url")) := by
  obtain ⟨web, fs, store, dErr, pErr, wErr, lErr⟩ := env
  cases dErr with
  | some e => simp [lambda_handler] at h
  | none =>
      cases hpr : (put_object (PyData.str (eventGet ev "test-url"))
          (eventGet ev "s3-bucket") (eventGet ev "s3-object-key")
          fs store pErr wErr lErr).result with
      | error e => simp [lambda_handler, hpr] at h
      | ok u =>
          simp [lambda_handler, hpr] at h
          subst h
          exact ⟨rfl, rfl, rfl⟩

theorem C8_witness :
    (lambda_handler ⟨fun _ => "Example Domain", [("u", [104, 105])], [],
        none, none, none, none⟩
      [("test-url", "u"), ("s3-bucket", "b"), ("s3-object-key", "k")] "ctx").result
      = .ok ⟨200, [("Content-Type", "application/json")], jsonDumpsTitle "Example Domain"⟩
    ∧ (200 = 200 ∧ [("Content-Type", "application/json")] = [("Content-Type", "application/json")]
        ∧ jsonDumpsTitle "Example Domain" = jsonDumpsTitle "Example Domain") :=
  ⟨by decide,
   C8_theorem ⟨fun _ => "Example Domain", [("u", [104, 105])], [], none, none, none, none⟩
     [("test-url", "u"), ("s3-bucket", "b"), ("s3-object-key", "k")] "ctx"
     ⟨200, [("Content-Type", "application/json")], jsonDumpsTitle "Example Domain"⟩
     (by decide)⟩

/-- C2 as stated is false: when the storage write raises, `lambda_handler`
does not return the 200 response — the exception propagates, because the
handler has no try/except.  Concretely, with an empty local filesystem the
`put` step opens the URL string as a filename, raises `IOError`, and the
handler's outcome is that error, not the response. -/
theorem C2_counterexample :
    (lambda_handler ⟨fun _ => "Example Domain", [], [], none, none, none, none⟩
      [("test-url", "https://example.com"), ("s3-bucket", "b"), ("s3-object-key", "k")]
      "ctx").result
      = .error (.ioError "https://example.com")
    ∧ (lambda_handler ⟨fun _ => "Example Domain", [], [], none, none, none, none⟩
      [("test-url", "https://example.com"), ("s3-bucket", "b"), ("s3-object-key", "k")]
      "ctx").result
      ≠ .ok ⟨200, [("Content-Type", "application/json")], jsonDumpsTitle "Example Domain"⟩ := by
  constructor
  · decide
  · decide

/-- C2 amended: with the driver succeeding, `lambda_handler` returns the
200 response exactly when the storage-write step (`put_object`) returns
normally; when that step raises, the same exception propagates out of the
handler and nothing is returned. -/
theorem C2_amended (env : Env) (ev : Event) (ctx : String) (e : PyExc)
    (hd : env.driverErr = none) :
    ((put_object (PyData.str (eventGet ev "test-url")) (eventGet ev "s3-bucket")
        (eventGet ev "s3-object-key") env.fs env.store
        env.putErr env.waitErr env.listErr).result = .error e →
      (lambda_handler env ev ctx).result = .error e)
    ∧ ((put_object (PyData.str (eventGet ev "test-url")) (eventGet ev "s3-bucket")
        (eventGet ev "s3-object-key") env.fs env.store
        env.putErr env.waitErr env.listErr).result = .ok () →
      (lambda_handler env ev ctx).result
        = .ok ⟨200, [("Content-Type", "application/json")],
            jsonDumpsTitle (env.web (eventGet ev "test-url"))⟩) := by
  obtain ⟨web, fs, store, dErr, pErr, wErr, lErr⟩ := env
  cases dErr with
  | some e' => simp at hd
  | none =>
      constructor
      · intro hpr
        simp [lambda_handler, hpr]
      · intro hpr
        simp [lambda_handler, hpr]

theorem C2_witness :
    (lambda_handler ⟨fun _ => "T", [], [], none, none, none, none⟩
      [("test-url", "u")] "ctx").result = .error (.ioError "u")
    ∧ (lambda_handler ⟨fun _ => "T", [("u", [9])], [], none, none, none, none⟩
      [("test-url", "u")] "ctx").result
      = .ok ⟨200, [("Content-Type", "application/json")], jsonDumpsTitle "T"⟩ :=
  ⟨(C2_amended ⟨fun _ => "T", [], [], none, none, none, none⟩
      [("test-url", "u")] "ctx" (.ioError "u") rfl).1 (by decide),
   (C2_amended ⟨fun _ => "T", [("u", [9])], [], none, none, none, none⟩
      [("test-url", "u")] "ctx" (.ioError "u") rfl).2 (by decide)⟩

/-- C1 as stated is false: the handler passes the URL string to `put`,
which treats any `str` as a local FILENAME, so the body written to storage
is the content of the file named by the URL — not the URL string itself.
Concretely: with a local file literally named `https://example.com` holding
the bytes `[104, 105]`, the handler returns 200 and the stored object's
body is `[104, 105]`, which differs from the UTF-8 bytes of the URL
string. -/
theorem C1_counterexample :
    (lambda_handler ⟨fun _ => "Example Domain", [("https://example.com", [104, 105])],
        [], none, none, none, none⟩
      [("test-url", "https://example.com"), ("s3-bucket", "b"), ("s3-object-key", "k")]
      "ctx").result
      = .ok ⟨200, [("Content-Type", "application/json")], jsonDumpsTitle "Example Domain"⟩
    ∧ storeGet (lambda_handler ⟨fun _ => "Example Domain",
        [("https://example.com", [104, 105])], [], none, none, none, none⟩
      [("test-url", "https://example.com"), ("s3-bucket", "b"), ("s3-object-key", "k")]
      "ctx").store "b" "k" = some [104, 105]
    ∧ storeGet (lambda_handler ⟨fun _ => "Example Domain",
        [("https://example.com", [104, 105])], [], none, none, none, none⟩
      [("test-url", "https://example.com"), ("s3-bucket", "b"), ("s3-object-key", "k")]
      "ctx").store "b" "k" ≠ some (strUTF8 "https://example.com") := by
  refine ⟨by decide, by decide, by decide⟩

/-- C1 amended: the handler passes the original URL string (the `test-url`
value) to the storage write as the `data` argument; `put` interprets a
`str` as a local filename, so with all client calls succeeding the stored
object's body is the content of the local file named by the URL (still
neither the page title nor the page content); when no such file exists the
write raises `IOError` and the service state is left unchanged. -/
theorem C1_amended (env : Env) (ev : Event) (ctx : String) (content : Bytes)
    (hd : env.driverErr = none) (hp : env.putErr = none)
    (hw : env.waitErr = none) (hl : env.listErr = none) :
    (fsOpen env.fs (eventGet ev "test-url") = some content →
      storeGet (lambda_handler env ev ctx).store (eventGet ev "s3-bucket")
        (eventGet ev "s3-object-key") = some content)
    ∧ (fsOpen env.fs (eventGet ev "test-url") = none →
      (lambda_handler env ev ctx).result
        = .error (.ioError (eventGet ev "test-url"))
      ∧ (lambda_handler env ev ctx).store = env.store) := by
  obtain ⟨web, fs, store, dErr, pErr, wErr, lErr⟩ := env
  cases dErr with
  | some e => simp at hd
  | none =>
      cases pErr with
      | some e => simp at hp
      | none =>
          cases wErr with
          | some e => simp at hw
          | none =>
              cases lErr with
              | some e => simp at hl
              | none =>
                  constructor
                  · intro h
                    simp [lambda_handler, put_object, mainPut, mainPutBody,
                      mainList, h, storeGet_storePut_same]
                  · intro h
                    simp [lambda_handler, put_object, mainPut, h]

theorem C1_witness :
    storeGet (lambda_handler ⟨fun _ => "T", [("u", [104, 105])], [],
        none, none, none, none⟩
      [("test-url", "u"), ("s3-bucket", "b"), ("s3-object-key", "k")] "ctx").store
      "b" "k" = some [104, 105]
    ∧ ((lambda_handler ⟨fun _ => "T", [], [], none, none, none, none⟩
        [("test-url", "u"), ("s3-bucket", "b"), ("s3-object-key", "k")] "ctx").result
        = .error (.ioError "u")
      ∧ (lambda_handler ⟨fun _ => "T", [], [], none, none, none, none⟩
        [("test-url", "u"), ("s3-bucket", "b"), ("s3-object-key", "k")] "ctx").store = []) :=
  ⟨(C1_amended ⟨fun _ => "T", [("u", [104, 105])], [], none, none, none, none⟩
      [("test-url", "u"), ("s3-bucket", "b"), ("s3-object-key", "k")] "ctx"
      [104, 105] rfl rfl rfl rfl).1 (by decide),
   (C1_amended ⟨fun _ => "T", [], [], none, none, none, none⟩
      [("test-url", "u"), ("s3-bucket", "b"), ("s3-object-key", "k")] "ctx"
      [] rfl rfl rfl rfl).2 (by decide)⟩

/-- C9: the `ObjectWrapper` class copied into `main.py` and the one in
`objectwrapper.py` are behaviourally equivalent on every operation and
input: same return value, same service-state effect, same raise conditions
and same error/warning logging — the only difference is that the main.py
copy emits its success messages through `print` instead of `logger.info`,
so the two logs agree once info-level entries are stripped. -/
theorem C9_theorem (o : S3Obj) (data : PyData) (fs : FS) (st : Store)
    (pe we ge le de dwe be : Option PyExc) (bucket : String)
    (keys : List String) (outcome : Except PyExc DelObjsResponse)
    (pfx : Option String) :
    ((mainPut o data fs st pe we).result = (owPut o data fs st pe we).result
      ∧ (mainPut o data fs st pe we).store = (owPut o data fs st pe we).store
      ∧ (mainPut o data fs st pe we).opens = (owPut o data fs st pe we).opens
      ∧ (mainPut o data fs st pe we).handleOpened = (owPut o data fs st pe we).handleOpened
      ∧ (mainPut o data fs st pe we).closedHandle = (owPut o data fs st pe we).closedHandle
      ∧ (mainPut o data fs st pe we).waited = (owPut o data fs st pe we).waited
      ∧ errWarnLog (mainPut o data fs st pe we).log
          = errWarnLog (owPut o data fs st pe we).log)
    ∧ ((mainGet o st ge).result = (owGet o st ge).result
      ∧ errWarnLog (mainGet o st ge).log = errWarnLog (owGet o st ge).log)
    ∧ ((mainList bucket st pfx le).result = (owList bucket st pfx le).result
      ∧ errWarnLog (mainList bucket st pfx le).log
          = errWarnLog (owList bucket st pfx le).log)
    ∧ ((mainDelete o st de dwe).result = (owDelete o st de dwe).result
      ∧ (mainDelete o st de dwe).store = (owDelete o st de dwe).store
      ∧ errWarnLog (mainDelete o st de dwe).log
          = errWarnLog (owDelete o st de dwe).log)
    ∧ ((mainDeleteObjects bucket keys outcome).result
          = (owDeleteObjects bucket keys outcome).result
      ∧ errWarnLog (mainDeleteObjects bucket keys outcome).log
          = errWarnLog (owDeleteObjects bucket keys outcome).log)
    ∧ ((mainEmptyBucket bucket st be).result = (owEmptyBucket bucket st be).result
      ∧ (mainEmptyBucket bucket st be).store = (owEmptyBucket bucket st be).store
      ∧ errWarnLog (mainEmptyBucket bucket st be).log
          = errWarnLog (owEmptyBucket bucket st be).log) :=
  ⟨put_agree o data fs st pe we, get_agree o st ge, list_agree bucket st pfx le,
   delete_agree o st de dwe, delete_objects_agree bucket keys outcome,
   empty_agree bucket st be⟩

end WByte
